import Mathlib

/-!
Verification of the access-control core of the start-page dashboard
(`backend/auth.py` and `backend/app.py`).

The Python code is shallowly embedded: the YAML user/role document, the
Flask session and the request headers become explicit values threaded
through each function; Python string primitives (`str.strip`,
`str.split(',')`, `sorted`, truthiness of strings) are reimplemented by
structural recursion over character lists so that every definition
evaluates inside the kernel.
-/

/-! ## Python string primitives -/

/-- Characters removed by Python `str.strip()` (ASCII whitespace). -/
def dropLeadingWS : List Char → List Char
  | [] => []
  | c :: rest => if c.isWhitespace then dropLeadingWS rest else c :: rest

/-- Embedding of Python `str.strip()`. -/
def pyStrip (s : String) : String :=
  String.mk ((dropLeadingWS ((dropLeadingWS s.data).reverse)).reverse)

def splitCommaAux : List Char → List Char → List String
  | [], acc => [String.mk acc.reverse]
  | c :: rest, acc =>
    if c = ',' then String.mk acc.reverse :: splitCommaAux rest []
    else splitCommaAux rest (c :: acc)

/-- Embedding of Python `str.split(',')`: splits at every comma, never
collapses empty fields, always returns at least one element. -/
def pySplitComma (s : String) : List String := splitCommaAux s.data []

/-- Code-point comparison of strings, as Python `<` on `str`. -/
def charListLt : List Char → List Char → Bool
  | [], [] => false
  | [], _ :: _ => true
  | _ :: _, [] => false
  | a :: as, b :: bs =>
    if a.toNat < b.toNat then true
    else if b.toNat < a.toNat then false
    else charListLt as bs

def strLt (a b : String) : Bool := charListLt a.data b.data

def insertSorted (x : String) : List String → List String
  | [] => [x]
  | y :: rest => if strLt y x then y :: insertSorted x rest else x :: y :: rest

/-- Embedding of Python `sorted` on a list of strings (stable, ascending
by code points). -/
def sortStrings : List String → List String
  | [] => []
  | x :: rest => insertSorted x (sortStrings rest)

/-! ## Data model (the YAML user/role document, sessions, requests) -/

/-- A record of the `users:` list of `users.yaml`.  Optional fields model
missing YAML keys. -/
structure User where
  username : String
  password : String
  email : Option String := none
  first_name : Option String := none
  last_name : Option String := none
  roles : List String := []
deriving Repr, DecidableEq

/-- A record of the `roles:` list of `users.yaml`. -/
structure Role where
  name : String
  description : String := ""
  categories : List String := []
  is_admin : Bool := false
deriving Repr, DecidableEq

/-- The whole user/role document (`load_users` / `save_users` replace it
wholesale). -/
structure UsersDoc where
  users : List User
  roles : List Role
deriving Repr, DecidableEq

/-- The Flask server-side session: `none` fields model absent keys.  The
code only ever stores the keys `username` and `session_token`. -/
structure Session where
  username : Option String := none
  session_token : Option String := none
deriving Repr, DecidableEq

/-- The parts of a Flask request that the access-control core reads:
the two proxy headers (`none` models an absent header) and the raw
connection address. -/
structure RequestInfo where
  xRealIP : Option String := none
  xForwardedFor : Option String := none
  remoteAddr : String
deriving Repr, DecidableEq

/-- The principal dictionary returned by `get_current_user`. -/
structure Principal where
  username : String
  roles : List String
  email : String := ""
  is_local : Bool
  is_admin : Bool
deriving Repr, DecidableEq

/-- One entry appended by `audit_log` (timestamp and ip omitted: the
claims only concern action, username and the details map). -/
structure AuditEntry where
  action : String
  username : String
  details : List (String × String) := []
deriving Repr, DecidableEq

/-- Outcome of a route-guard decorator: `allow` means the wrapped handler
is invoked; `denied status body loginRequiredFlag` is the JSON error
returned instead (the flag records whether `login_required: true` is in
the body). -/
inductive Gate where
  | allow : Gate
  | denied : Nat → String → Bool → Gate
deriving Repr, DecidableEq

/-! ## `backend/auth.py` -/

/-- `load_users` (auth.py:10-17).  The raw read result is `none` when
`open`/`yaml.safe_load` raises (file missing or unreadable); the except
branch prints and returns `{'users': [], 'roles': []}`. -/
def load_users (raw : Option UsersDoc) : UsersDoc :=
  match raw with
  | some data => data
  | none => { users := [], roles := [] }

def LOCAL_IPS : List String := ["127.0.0.1", "localhost", "::1"]

/-- `is_local_request` (auth.py:29-49).  Header values are `.strip()`ed;
a header that strips to the empty string is falsy and falls through. -/
def is_local_request (req : RequestInfo) : Bool :=
  let real_ip := pyStrip (req.xRealIP.getD "")
  let forwarded_for := pyStrip (req.xForwardedFor.getD "")
  if real_ip ≠ "" then LOCAL_IPS.contains real_ip
  else if forwarded_for ≠ "" then
    LOCAL_IPS.contains (pyStrip ((pySplitComma forwarded_for).headD ""))
  else
    LOCAL_IPS.contains req.remoteAddr

/-- The `for user in users_data.get('users', [])` lookup loop: first user
whose `username` equals `name`. -/
def findUserIn : List User → String → Option User
  | [], _ => none
  | u :: rest, name =>
    if u.username == name then some u else findUserIn rest name

def findUser (doc : UsersDoc) (name : String) : Option User :=
  findUserIn doc.users name

/-- The admin-detection loop shared by `get_current_user` (auth.py:68-73)
and `admin_required` (auth.py:130-134): some role of the table is held by
the user and has `is_admin` set or is literally named `Admins`. -/
def userIsAdmin (doc : UsersDoc) (user_roles : List String) : Bool :=
  doc.roles.any (fun role =>
    user_roles.contains role.name && (role.is_admin || role.name == "Admins"))

/-- The implicit principal returned for localhost callers. -/
def localhost_principal : Principal :=
  { username := "localhost", roles := ["Admins"], email := "", is_local := true,
    is_admin := true }

/-- `get_current_user` (auth.py:51-82). -/
def get_current_user (req : RequestInfo) (sess : Session) (doc : UsersDoc) :
    Option Principal :=
  if is_local_request req then
    some localhost_principal
  else
    match sess.username with
    | none => none
    | some uname =>
      match findUser doc uname with
      | none => none
      | some user =>
        some { username := user.username, roles := user.roles,
               email := user.email.getD "", is_local := false,
               is_admin := userIsAdmin doc user.roles }

/-- `get_user_categories` (auth.py:84-97).  The Python function builds a
`set` and returns `list(...)` of it in unspecified order; the model keeps
the set itself. -/
def get_user_categories (user? : Option Principal) (doc : UsersDoc) :
    Finset String :=
  match user? with
  | none => ∅
  | some user =>
    doc.roles.foldl
      (fun cats role =>
        if user.roles.contains role.name then cats ∪ role.categories.toFinset
        else cats)
      ∅

/-- `login_required` (auth.py:99-112): local passes, a session without a
`username` key gets 401 with `login_required: true`, any session carrying
a username passes (the store is not consulted). -/
def login_required (req : RequestInfo) (sess : Session) : Gate :=
  if is_local_request req then Gate.allow
  else
    match sess.username with
    | none => Gate.denied 401 "Authentication required" true
    | some _ => Gate.allow

/-- `admin_required` (auth.py:114-138): local passes; otherwise the
resolved principal must exist and hold an admin role (the same loop as
`userIsAdmin`, re-run on a fresh `load_users` — the same document in this
per-request model). -/
def admin_required (req : RequestInfo) (sess : Session) (doc : UsersDoc) : Gate :=
  if is_local_request req then Gate.allow
  else
    match get_current_user req sess doc with
    | none => Gate.denied 403 "Admin access required" false
    | some user =>
      if userIsAdmin doc user.roles then Gate.allow
      else Gate.denied 403 "Admin access required" false

/-- `authenticate_user` (auth.py:140-148): plain string comparison of the
supplied password with the stored `password` field, whatever that field
holds. -/
def authenticate_user (doc : UsersDoc) (username password : String) : Bool :=
  doc.users.any (fun user => user.username == username && user.password == password)

/-! ## Password hasher (imported by app.py from auth, absent from src) -/

/-- Modelled from the spec: `hash(plaintext) -> digest` of the Password
Hasher (§4.4), whose definition is missing from src (app.py imports
`hash_password` from auth).  A bcrypt-style digest carrying a fixed
recognisable prefix; the digest of a plaintext is never the plaintext
itself. -/
def hash_password (plaintext : String) : String :=
  "$2b$12$" ++ plaintext

/-- Modelled from the spec: `looksHashed(value) -> bool` (§4.4), a
structural check recognising the digest's fixed prefix. -/
def is_password_hashed (value : String) : Bool :=
  "$2b$".data.isPrefixOf value.data

/-- Modelled from the spec: `verify(plaintext, digest) -> bool` (§4.4). -/
def verify_password (plaintext digest : String) : Bool :=
  digest == hash_password plaintext

/-- Modelled from the spec: the pluggable password strength policy (§6),
a "minimum length class of check". -/
def validate_password_strength (password : String) : Bool × String :=
  if password.data.length < 8 then
    (false, "Password must be at least 8 characters")
  else
    (true, "")

/-! ## `backend/app.py` -/

/-- `sanitize_string` (app.py:93-99): remove null bytes, strip, truncate
to `max_length` characters. -/
def sanitize_string (value : String) (max_length : Nat := 1000) : String :=
  String.mk (((pyStrip (String.mk (value.data.filter (fun c => c ≠ '\x00')))).data).take max_length)

/-- `get_session_token` (app.py:107-119): the fingerprint
`sha256(",".join(sorted(roles)) + ":" + password)` of the stored record,
`none` when the username is absent from the store.  The model is
parametric in `sha`: the claims depend only on the fingerprint being a
deterministic function of its input string. -/
def get_session_token (sha : String → String) (doc : UsersDoc) (username : String) :
    Option String :=
  match findUser doc username with
  | none => none
  | some user =>
    let roles_str := String.intercalate "," (sortStrings user.roles)
    some (sha (roles_str ++ ":" ++ user.password))

/-- `check_session_token` (app.py:121-130): sessions without a
`session_token` key are grandfathered as valid; otherwise the freshly
computed token must equal the stored one (`None` from `get_session_token`
also counts as a mismatch against a present token). -/
def check_session_token (sha : String → String) (doc : UsersDoc) (sess : Session)
    (username : String) : Bool :=
  match sess.session_token with
  | none => true
  | some tok => get_session_token sha doc username == some tok

/-- The response of `/api/auth/status` together with the session as left
behind by the handler and the audit entries it appended. -/
structure AuthStatusResult where
  status : Nat
  authenticated : Bool
  user : Option Principal
  session_invalidated : Bool
  newSession : Session
  audit : List AuditEntry
deriving Repr, DecidableEq

/-- `auth_status` (app.py:157-194).  Note the Python guard
`if username and not check_session_token(username)`: an empty (or
absent) session username is falsy and skips the token check. -/
def auth_status (sha : String → String) (req : RequestInfo) (sess : Session)
    (doc : UsersDoc) : AuthStatusResult :=
  if is_local_request req then
    { status := 200, authenticated := true, user := some localhost_principal,
      session_invalidated := false, newSession := sess, audit := [] }
  else
    match get_current_user req sess doc with
    | some user =>
      let uname := sess.username.getD ""
      if uname ≠ "" ∧ check_session_token sha doc sess uname = false then
        { status := 200, authenticated := false, user := none,
          session_invalidated := true, newSession := {},
          audit := [{ action := "session_invalidated", username := uname,
                      details := [("reason", "role_or_password_changed")] }] }
      else
        { status := 200, authenticated := true, user := some user,
          session_invalidated := false, newSession := sess, audit := [] }
    | none =>
      { status := 200, authenticated := false, user := none,
        session_invalidated := false, newSession := sess, audit := [] }

/-- `is_ip_whitelisted` (app.py:78-91): local always passes, an empty
whitelist passes everyone, otherwise the raw `X-Real-IP` header (Python
`or` falls back to `remote_addr` when the header is absent or empty) must
be listed. -/
def is_ip_whitelisted (req : RequestInfo) (whitelist : List String) : Bool :=
  if is_local_request req then true
  else if whitelist.isEmpty then true
  else
    let client_ip :=
      match req.xRealIP with
      | some v => if v ≠ "" then v else req.remoteAddr
      | none => req.remoteAddr
    whitelist.contains client_ip

/-- The response of `/api/auth/login` together with the resulting session
and audit entries. -/
structure LoginResult where
  status : Nat
  body : String
  success : Bool
  user : Option Principal
  newSession : Session
  audit : List AuditEntry
deriving Repr, DecidableEq

/-- `login` (app.py:196-227).  `rawUsername`/`rawPassword` are the JSON
body fields (missing fields default to `""`). -/
def login (sha : String → String) (req : RequestInfo) (sess : Session)
    (doc : UsersDoc) (whitelist : List String)
    (rawUsername rawPassword : String) : LoginResult :=
  if is_ip_whitelisted req whitelist = false then
    { status := 403, body := "Access denied", success := false, user := none,
      newSession := sess,
      audit := [{ action := "login_blocked_ip", username := "anonymous",
                  details := [("ip", req.remoteAddr)] }] }
  else
    let username := sanitize_string rawUsername 100
    let password := rawPassword
    if username = "" ∨ password = "" then
      { status := 400, body := "Username and password required", success := false,
        user := none, newSession := sess, audit := [] }
    else if authenticate_user doc username password then
      let newSess : Session :=
        { username := some username, session_token := get_session_token sha doc username }
      { status := 200, body := "", success := true,
        user := get_current_user req newSess doc, newSession := newSess,
        audit := [{ action := "login_success", username := username }] }
    else
      { status := 401, body := "Invalid username or password", success := false,
        user := none, newSession := sess,
        audit := [{ action := "login_failed", username := username }] }

/-- Update of the first user with the given username, as the
`for user in users_data['users']` loop that mutates and returns. -/
def updateFirstUser (users : List User) (uname : String) (f : User → User) :
    List User :=
  match users with
  | [] => []
  | u :: rest =>
    if u.username == uname then f u :: rest
    else u :: updateFirstUser rest uname f

/-- The response of `/api/auth/change-password` together with the store
document and session as left behind, and the audit entries. -/
structure ChangePasswordResult where
  status : Nat
  message : String
  doc : UsersDoc
  session : Session
  audit : List AuditEntry
deriving Repr, DecidableEq

/-- `change_password` (app.py:237-291), on the success path assuming the
store write succeeds (`save_users` returning false yields a 500 and is
not modelled).  The current password is checked against the stored value
via `is_password_hashed`/`verify_password`; the new password is stored
hashed; the acting session's token is recomputed from the saved document
(`get_session_token` re-reads the file just written). -/
def change_password (sha : String → String) (req : RequestInfo) (sess : Session)
    (doc : UsersDoc) (current_password new_password : String) :
    ChangePasswordResult :=
  if is_local_request req then
    { status := 400, message := "Cannot change password for localhost access",
      doc := doc, session := sess, audit := [] }
  else if current_password = "" ∨ new_password = "" then
    { status := 400, message := "Current and new password required",
      doc := doc, session := sess, audit := [] }
  else if (validate_password_strength new_password).1 = false then
    { status := 400, message := (validate_password_strength new_password).2,
      doc := doc, session := sess, audit := [] }
  else
    match sess.username with
    | none =>
      { status := 404, message := "User not found", doc := doc, session := sess,
        audit := [] }
    | some uname =>
      match findUser doc uname with
      | none =>
        { status := 404, message := "User not found", doc := doc, session := sess,
          audit := [] }
      | some user =>
        let stored := user.password
        let is_correct :=
          if is_password_hashed stored then verify_password current_password stored
          else stored == current_password
        if is_correct = false then
          { status := 401, message := "Current password is incorrect",
            doc := doc, session := sess,
            audit := [{ action := "password_change_failed", username := uname,
                        details := [("reason", "incorrect_current_password")] }] }
        else
          let doc' : UsersDoc :=
            { doc with
              users := updateFirstUser doc.users uname
                  (fun u => { u with password := hash_password new_password }) }
          { status := 200, message := "Password changed successfully",
            doc := doc',
            session := { sess with session_token := get_session_token sha doc' uname },
            audit := [{ action := "password_changed", username := uname }] }

/-- An entry of the `categories` list of a posted configuration document
(only its `name` is read by `update_config`). -/
structure ConfigCategory where
  name : String
deriving Repr, DecidableEq

/-- The categories list written back into an admin role by
`update_config`: Python materialises `list(set(old) | set(new))` in
unspecified order; the model fixes one order, and every property about it
is stated on the underlying set of elements. -/
def mergeCategorySet (old new : List String) : List String :=
  (old ++ new).dedup

/-- The side effect of `update_config` (app.py:374-401) on the user/role
document when the posted configuration contains a `categories` list:
every role with `is_admin` set or named `Admins` absorbs all new category
names, and the document is saved. -/
def update_config_grant (doc : UsersDoc) (newConfigCategories : List ConfigCategory) :
    UsersDoc :=
  let new_category_names := newConfigCategories.map (fun cat => cat.name)
  { doc with roles := doc.roles.map (fun role =>
      if role.is_admin || role.name == "Admins" then
        { role with categories := mergeCategorySet role.categories new_category_names }
      else role) }

/-! ## Helper lemmas -/

lemma append_left_cancel_str (s a b : String) (h : s ++ a = s ++ b) : a = b := by
  have h2 := congrArg String.data h
  simp only [String.data_append] at h2
  exact String.ext (List.append_cancel_left h2)

lemma userIsAdmin_iff (doc : UsersDoc) (rs : List String) :
    userIsAdmin doc rs = true ↔
      ∃ r, r ∈ doc.roles ∧ r.name ∈ rs ∧ (r.is_admin = true ∨ r.name = "Admins") := by
  simp [userIsAdmin, List.any_eq_true, Bool.and_eq_true, Bool.or_eq_true, beq_iff_eq,
    and_assoc]

lemma get_current_user_some_inv {req : RequestInfo} {sess : Session} {doc : UsersDoc}
    {u : Principal} (hl : is_local_request req = false)
    (h : get_current_user req sess doc = some u) :
    ∃ uname user, sess.username = some uname ∧ findUser doc uname = some user ∧
      u = { username := user.username, roles := user.roles,
            email := user.email.getD "", is_local := false,
            is_admin := userIsAdmin doc user.roles } := by
  cases hs : sess.username with
  | none => simp [get_current_user, hl, hs] at h
  | some uname =>
    simp only [get_current_user, hl, Bool.false_eq_true, if_false, hs] at h
    cases hf : findUser doc uname with
    | none => simp [hf] at h
    | some user =>
      simp only [hf, Option.some.injEq] at h
      exact ⟨uname, user, rfl, hf, h.symm⟩

/-! ## Claim C1 -/

def reqNonLocal : RequestInfo := { remoteAddr := "203.0.113.5" }

/-- User/role document holding a migrated (hashed) credential. -/
def docC1 : UsersDoc :=
  { users := [{ username := "alice", password := hash_password "Secret123!",
                roles := ["Ops"] }],
    roles := [{ name := "Ops", categories := ["infra"] }] }

/-- Claim C1: `authenticate_user` compares the supplied password with the
stored value by plain string equality only, so a user whose stored
password is a hash digest can NOT authenticate with the original
plaintext — although the very same credential pair is accepted by
`change_password`'s own dual-path check (hashed → `verify_password`),
the users it creates are stored hashed, and the startup banner announces
bcrypt hashing.  This theorem evaluates the code at the failing input. -/
theorem authenticate_user_rejects_migrated_credentials :
    is_password_hashed (hash_password "Secret123!") = true ∧
    verify_password "Secret123!" (hash_password "Secret123!") = true ∧
    authenticate_user docC1 "alice" "Secret123!" = false ∧
    (change_password (fun s => s) reqNonLocal { username := some "alice" } docC1
        "Secret123!" "NewSecret99").status = 200 := by
  decide

/-! ## Claim C2 -/

def sessDangling : Session := { username := some "ghost" }

def docC2 : UsersDoc := { users := [], roles := [] }

/-- Claim C2 counterexample: a non-local request whose session carries a
username absent from the store resolves to no principal, yet
`login_required` lets it through to the wrapped handler instead of
rejecting it with 401/`login_required`. -/
theorem login_required_dangling_session_cex :
    is_local_request reqNonLocal = false ∧
    get_current_user reqNonLocal sessDangling docC2 = none ∧
    login_required reqNonLocal sessDangling = Gate.allow := by
  decide

/-- Claim C2 (amended): the read gate rejects, with 401 and the
`login_required` marker, exactly those non-local requests whose session
carries no username at all; any session carrying a username — even a
dangling one naming no stored user — passes the gate and the wrapped
handler is invoked. -/
theorem login_required_characterization :
    ∀ (req : RequestInfo) (sess : Session),
      is_local_request req = false →
      ((sess.username = none →
          login_required req sess = Gate.denied 401 "Authentication required" true) ∧
        ∀ u, sess.username = some u → login_required req sess = Gate.allow) := by
  intro req sess hl
  constructor
  · intro hn
    simp [login_required, hl, hn]
  · intro u hu
    simp [login_required, hl, hu]

/-- Witness for the amended C2 theorem at a concrete anonymous request. -/
theorem login_required_characterization_witness :
    login_required reqNonLocal { username := none } =
      Gate.denied 401 "Authentication required" true :=
  (login_required_characterization reqNonLocal { username := none } (by decide)).1 rfl

/-! ## Claim C3 -/

/-- Claim C3 counterexample: when the raw read fails (`none`),
`load_users` returns the empty document — indistinguishable from a store
that really is empty — and downstream operations proceed on that empty
state (no authentication succeeds, no principal resolves); there is no
error outcome in the function's result type at all. -/
theorem load_users_failure_yields_empty_doc_cex :
    load_users none = { users := [], roles := [] } ∧
    load_users none = load_users (some { users := [], roles := [] }) ∧
    authenticate_user (load_users none) "alice" "Secret123!" = false ∧
    get_current_user reqNonLocal { username := some "alice" } (load_users none) =
      none := by
  decide

/-- Claim C3 (amended): a failed read of the user/role document degrades
to the empty document `{users: [], roles: []}` (after a logged
diagnostic), so callers proceed as if the store were empty: every login
attempt fails and every non-local session resolves to no principal. -/
theorem load_users_failure_degrades_to_empty_state
    (req : RequestInfo) (sess : Session) (uname pw : String) :
    load_users none = { users := [], roles := [] } ∧
    authenticate_user (load_users none) uname pw = false ∧
    (is_local_request req = false →
      get_current_user req sess (load_users none) = none) := by
  refine ⟨rfl, rfl, fun hl => ?_⟩
  rw [get_current_user, hl]
  simp only [Bool.false_eq_true, if_false]
  cases sess.username <;> simp [findUser, findUserIn, load_users]

/-- Witness for the amended C3 theorem at a concrete non-local request. -/
theorem load_users_failure_degrades_witness :
    get_current_user reqNonLocal { username := some "alice" } (load_users none) =
      none :=
  (load_users_failure_degrades_to_empty_state reqNonLocal
    { username := some "alice" } "alice" "pw").2.2 (by decide)

/-! ## Claim C4 -/

/-- The claim's fallback chain after `X-Real-IP`: first comma token of
`X-Forwarded-For`, trimmed, when that header is present; else the raw
connection address.  (Stated from the claim's words, for comparison with
the source's `is_local_request`.) -/
def claim_fallback (req : RequestInfo) : String :=
  match req.xForwardedFor with
  | some f => pyStrip ((pySplitComma f).headD "")
  | none => req.remoteAddr

/-- The resolved client address exactly as the claim words it: the
`X-Real-IP` header VALUE when present and non-empty (untrimmed), else the
fallback chain. -/
def resolved_address_per_claim (req : RequestInfo) : String :=
  match req.xRealIP with
  | some v => if v ≠ "" then v else claim_fallback req
  | none => claim_fallback req

/-- Local-classification as the claim words it. -/
def is_local_per_claim (req : RequestInfo) : Bool :=
  LOCAL_IPS.contains (resolved_address_per_claim req)

def reqC4 : RequestInfo := { xRealIP := some " 127.0.0.1", remoteAddr := "203.0.113.9" }

/-- Claim C4 counterexample: with `X-Real-IP: " 127.0.0.1"` (note the
leading space) the code strips the header value and classifies the
request local, while the claim's resolved address is the raw header value
`" 127.0.0.1"`, which matches none of `{127.0.0.1, ::1, localhost}` and
so would be non-local. -/
theorem is_local_request_trims_xrealip_cex :
    is_local_request reqC4 = true ∧ is_local_per_claim reqC4 = false := by
  decide

/-- The resolved client address as the code actually computes it: header
values are stripped, a header that is absent or strips to the empty
string falls through (X-Real-IP first, then the first comma token of
X-Forwarded-For, itself trimmed, then the raw connection address). -/
def resolved_address_amended (req : RequestInfo) : String :=
  let real_ip := pyStrip (req.xRealIP.getD "")
  let forwarded_for := pyStrip (req.xForwardedFor.getD "")
  if real_ip ≠ "" then real_ip
  else if forwarded_for ≠ "" then pyStrip ((pySplitComma forwarded_for).headD "")
  else req.remoteAddr

/-- Claim C4 (amended): the Trust Resolver classifies a request local iff
the resolved address is exactly one of `{127.0.0.1, localhost, ::1}`,
where the resolved address is the TRIMMED `X-Real-IP` value when that
trims non-empty (a whitespace-only header counts as absent); else the
first comma-separated token of the trimmed `X-Forwarded-For`, trimmed,
when that header trims non-empty; else the raw connection address. -/
theorem is_local_request_resolved_address :
    ∀ req : RequestInfo,
      is_local_request req = LOCAL_IPS.contains (resolved_address_amended req) := by
  intro req
  simp only [is_local_request, resolved_address_amended]
  split_ifs <;> rfl

/-! ## Claim C5 -/

/-- Claim C5: the admin predicate — some role of the table that the user
holds has `is_admin = true` or is named exactly `Admins` (so a role named
`Admins` confers administrator status even with `is_admin = false`) —
characterises both the `is_admin` flag the identity resolver puts into
the principal and the write gate's allow decision for a resolved
non-local principal. -/
theorem admin_predicate_characterization (doc : UsersDoc) :
    (∀ rs : List String,
      userIsAdmin doc rs = true ↔
        ∃ r, r ∈ doc.roles ∧ r.name ∈ rs ∧ (r.is_admin = true ∨ r.name = "Admins")) ∧
    (∀ (req : RequestInfo) (sess : Session) (u : Principal),
      is_local_request req = false →
      get_current_user req sess doc = some u →
      u.is_admin = userIsAdmin doc u.roles ∧
      (admin_required req sess doc = Gate.allow ↔ userIsAdmin doc u.roles = true)) := by
  refine ⟨fun rs => userIsAdmin_iff doc rs, fun req sess u hl hu => ?_⟩
  obtain ⟨uname, user, hs, hf, hp⟩ := get_current_user_some_inv hl hu
  subst hp
  refine ⟨rfl, ?_⟩
  simp only [admin_required, hl, Bool.false_eq_true, if_false, hu]
  by_cases ha : userIsAdmin doc user.roles = true
  · simp [ha]
  · simp [ha]

def docC5 : UsersDoc :=
  { users := [{ username := "bob", password := "pw", roles := ["Admins"] }],
    roles := [{ name := "Admins", is_admin := false }] }

def sessC5 : Session := { username := some "bob" }

/-- Witness for C5: a user holding a role literally named `Admins` whose
stored `is_admin` flag is `false` still passes the write gate. -/
theorem admin_predicate_characterization_witness :
    userIsAdmin docC5 ["Admins"] = true ∧
    admin_required reqNonLocal sessC5 docC5 = Gate.allow := by
  have h := admin_predicate_characterization docC5
  constructor
  · exact (h.1 ["Admins"]).mpr
      ⟨{ name := "Admins", is_admin := false }, by decide, by decide, Or.inr rfl⟩
  · have h2 := h.2 reqNonLocal sessC5
      { username := "bob", roles := ["Admins"], email := "", is_local := false,
        is_admin := userIsAdmin docC5 ["Admins"] }
      (by decide) (by decide)
    exact h2.2.mpr (by decide)

/-! ## Claim C6 -/

lemma mem_foldl_union (user : Principal) (l : List Role) (acc : Finset String)
    (c : String) :
    (c ∈ l.foldl
      (fun cats role =>
        if user.roles.contains role.name then cats ∪ role.categories.toFinset
        else cats)
      acc) ↔
      c ∈ acc ∨ ∃ r, r ∈ l ∧ r.name ∈ user.roles ∧ c ∈ r.categories := by
  induction l generalizing acc with
  | nil => simp
  | cons r rest ih =>
    simp only [List.foldl_cons]
    rw [ih]
    by_cases hr : user.roles.contains r.name
    · simp only [hr, if_true, Finset.mem_union, List.mem_toFinset, List.mem_cons]
      constructor
      · rintro (⟨hc | hc⟩ | ⟨x, hx, hn, hc⟩)
        · exact Or.inl hc
        · exact Or.inr ⟨r, Or.inl rfl, by simpa using hr, hc⟩
        · exact Or.inr ⟨x, Or.inr hx, hn, hc⟩
      · rintro (hc | ⟨x, hx | hx, hn, hc⟩)
        · exact Or.inl (Or.inl hc)
        · subst hx; exact Or.inl (Or.inr hc)
        · exact Or.inr ⟨x, hx, hn, hc⟩
    · simp only [hr, if_false, List.mem_cons]
      constructor
      · rintro (hc | ⟨x, hx, hn, hc⟩)
        · exact Or.inl hc
        · exact Or.inr ⟨x, Or.inr hx, hn, hc⟩
      · rintro (hc | ⟨x, hx | hx, hn, hc⟩)
        · exact Or.inl hc
        · subst hx; exact absurd (by simpa using hn) (by simpa using hr)
        · exact Or.inr ⟨x, hx, hn, hc⟩

/-- Claim C6: `get_user_categories` of an absent principal is the empty
set, and for a present principal it is exactly the union of the
`categories` of every role of the table whose name the principal holds
(held names absent from the table contribute nothing). -/
theorem accessible_categories_union (doc : UsersDoc) :
    get_user_categories none doc = ∅ ∧
    ∀ (user : Principal) (c : String),
      c ∈ get_user_categories (some user) doc ↔
        ∃ r, r ∈ doc.roles ∧ r.name ∈ user.roles ∧ c ∈ r.categories := by
  refine ⟨rfl, fun user c => ?_⟩
  have h := mem_foldl_union user doc.roles ∅ c
  simpa [get_user_categories] using h

/-! ## Claim C7 -/

/-- Claim C7: on a status check for an authenticated non-local session
(the session usernames the code itself issues are the non-empty sanitized
login names, hence `uname ≠ ""`): a session carrying no `session_token`
is grandfathered as valid, and a session whose token differs from the
freshly computed fingerprint of (sorted role names, password hash) is
cleared, audited as `session_invalidated` with reason
`role_or_password_changed`, and reported unauthenticated. -/
theorem session_integrity_status_check
    (sha : String → String) (req : RequestInfo) (sess : Session) (doc : UsersDoc)
    (user : Principal) (uname : String)
    (hl : is_local_request req = false)
    (hu : get_current_user req sess doc = some user)
    (hname : sess.username = some uname)
    (hne : uname ≠ "") :
    (sess.session_token = none →
      auth_status sha req sess doc =
        { status := 200, authenticated := true, user := some user,
          session_invalidated := false, newSession := sess, audit := [] }) ∧
    (∀ tok, sess.session_token = some tok →
      get_session_token sha doc uname ≠ some tok →
      auth_status sha req sess doc =
        { status := 200, authenticated := false, user := none,
          session_invalidated := true, newSession := {},
          audit := [{ action := "session_invalidated", username := uname,
                      details := [("reason", "role_or_password_changed")] }] }) := by
  constructor
  · intro htok
    have hchk : check_session_token sha doc sess uname = true := by
      simp [check_session_token, htok]
    simp [auth_status, hl, hu, hname, hchk]
  · intro tok htok hmismatch
    have hchk : check_session_token sha doc sess uname = false := by
      simp [check_session_token, htok, hmismatch]
    simp [auth_status, hl, hu, hname, hchk, hne]

def docC7 : UsersDoc :=
  { users := [{ username := "alice", password := "pw12345678", roles := ["Ops"] }],
    roles := [{ name := "Ops", categories := ["infra"] }] }

def sessC7 : Session := { username := some "alice", session_token := some "stale" }

/-- Witness for C7: a concrete stale token is detected — the session is
cleared, the audit event emitted, and the response unauthenticated. -/
theorem session_integrity_status_check_witness :
    auth_status (fun s => s) reqNonLocal sessC7 docC7 =
      { status := 200, authenticated := false, user := none,
        session_invalidated := true, newSession := {},
        audit := [{ action := "session_invalidated", username := "alice",
                    details := [("reason", "role_or_password_changed")] }] } := by
  have h := session_integrity_status_check (fun s => s) reqNonLocal sessC7 docC7
    { username := "alice", roles := ["Ops"], email := "", is_local := false,
      is_admin := userIsAdmin docC7 ["Ops"] }
    "alice" (by decide) (by decide) rfl (by decide)
  exact h.2 "stale" rfl (by decide)

/-! ## Claim C8 -/

/-- The in-place mutation `user['password'] = hash_password(new_password)`
performed by `change_password`. -/
def pwUpdate (new_password : String) : User → User :=
  fun u => { u with password := hash_password new_password }

/-- The user/role document after `change_password` saved the updated
record. -/
def docAfterPwChange (doc : UsersDoc) (uname new_password : String) : UsersDoc :=
  { doc with users := updateFirstUser doc.users uname (pwUpdate new_password) }

lemma findUserIn_updateFirstUser (users : List User) (uname : String)
    (f : User → User) (hf : ∀ u, (f u).username = u.username) (user : User)
    (h : findUserIn users uname = some user) :
    findUserIn (updateFirstUser users uname f) uname = some (f user) := by
  induction users with
  | nil => simp [findUserIn] at h
  | cons v rest ih =>
    cases hv : (v.username == uname) with
    | true =>
      have hveq : v = user := by simpa [findUserIn, hv] using h
      subst hveq
      simp [updateFirstUser, findUserIn, hv, hf v]
    | false =>
      have h2 : findUserIn rest uname = some user := by
        simpa [findUserIn, hv] using h
      simp [updateFirstUser, findUserIn, hv]
      exact ih h2

/-- Claim C8: after a successful self password-change by an authenticated
non-local user (sessions the code issues carry the non-empty login name,
hence `uname ≠ ""`), the acting session's token is recomputed from the
updated record and rewritten into the session, so a status check on that
session still reports it valid, while any other session for the same user
still carrying the pre-change token is invalidated on its next status
check.  The fingerprint function is assumed injective (collision-free),
which is what the spec's "must change if either input changes" relies
on. -/
theorem password_change_refreshes_own_token
    (sha : String → String) (req : RequestInfo) (sess : Session) (doc : UsersDoc)
    (uname current_password new_password : String) (user : User)
    (hinj : Function.Injective sha)
    (hl : is_local_request req = false)
    (hname : sess.username = some uname)
    (hne : uname ≠ "")
    (hfind : findUser doc uname = some user)
    (hcur : ¬ current_password = "") (hnew : ¬ new_password = "")
    (hstrong : (validate_password_strength new_password).1 = true)
    (hcorrect : (if is_password_hashed user.password then
        verify_password current_password user.password
      else user.password == current_password) = true)
    (hpw : user.password ≠ hash_password new_password) :
    let res := change_password sha req sess doc current_password new_password
    res.status = 200 ∧
    (auth_status sha req res.session res.doc).authenticated = true ∧
    (auth_status sha req res.session res.doc).session_invalidated = false ∧
    ∀ otherSess : Session, otherSess.username = some uname →
      otherSess.session_token = get_session_token sha doc uname →
      (auth_status sha req otherSess res.doc).authenticated = false ∧
      (auth_status sha req otherSess res.doc).session_invalidated = true := by
  intro res
  have hfind' : findUser (docAfterPwChange doc uname new_password) uname =
      some (pwUpdate new_password user) := by
    have h := findUserIn_updateFirstUser doc.users uname (pwUpdate new_password)
      (fun u => rfl) user hfind
    simpa [findUser, docAfterPwChange] using h
  have hres : res =
      { status := 200, message := "Password changed successfully",
        doc := docAfterPwChange doc uname new_password,
        session := { sess with
          session_token :=
            get_session_token sha (docAfterPwChange doc uname new_password) uname },
        audit := [{ action := "password_changed", username := uname }] } := by
    show change_password sha req sess doc current_password new_password = _
    simp only [change_password, docAfterPwChange, hl, Bool.false_eq_true, if_false,
      hname, hfind, hcorrect]
    simp [hcur, hnew, hstrong, pwUpdate]
    exact ⟨rfl, rfl⟩
  have hold : get_session_token sha doc uname =
      some (sha (String.intercalate "," (sortStrings user.roles) ++ ":" ++
        user.password)) := by
    simp [get_session_token, hfind]
  have hnewt : get_session_token sha (docAfterPwChange doc uname new_password) uname =
      some (sha (String.intercalate "," (sortStrings user.roles) ++ ":" ++
        hash_password new_password)) := by
    simp [get_session_token, hfind', pwUpdate]
  have hTne : sha (String.intercalate "," (sortStrings user.roles) ++ ":" ++
      hash_password new_password) ≠
      sha (String.intercalate "," (sortStrings user.roles) ++ ":" ++
        user.password) := by
    intro he
    exact hpw (append_left_cancel_str
      (String.intercalate "," (sortStrings user.roles) ++ ":") _ _ (hinj he)).symm
  have husr : res.session.username = some uname := by
    rw [hres]; simpa using hname
  have hu' : get_current_user req res.session res.doc =
      some { username := user.username, roles := user.roles,
             email := user.email.getD "", is_local := false,
             is_admin := userIsAdmin (docAfterPwChange doc uname new_password)
               user.roles } := by
    rw [hres]
    simp [get_current_user, hl, hname, hfind', pwUpdate]
  have hchk' : check_session_token sha res.doc res.session uname = true := by
    rw [hres]
    simp [check_session_token, hnewt]
  refine ⟨by rw [hres], ?_, ?_, ?_⟩
  · simp [auth_status, hl, hu', husr, hchk']
  · simp [auth_status, hl, hu', husr, hchk']
  · intro otherSess houser houtok
    have hu2 : get_current_user req otherSess res.doc =
        some { username := user.username, roles := user.roles,
               email := user.email.getD "", is_local := false,
               is_admin := userIsAdmin (docAfterPwChange doc uname new_password)
                 user.roles } := by
      rw [hres]
      simp [get_current_user, hl, houser, hfind', pwUpdate]
    have hot : otherSess.session_token =
        some (sha (String.intercalate "," (sortStrings user.roles) ++ ":" ++
          user.password)) := by
      rw [houtok, hold]
    have hchk2 : check_session_token sha res.doc otherSess uname = false := by
      rw [hres]
      simp [check_session_token, hot, hnewt, hTne]
    constructor
    · simp [auth_status, hl, hu2, hchk2, houser, hne]
    · simp [auth_status, hl, hu2, hchk2, houser, hne]

def docC8 : UsersDoc :=
  { users := [{ username := "alice", password := "oldpw12345", roles := ["Ops"] }],
    roles := [{ name := "Ops" }] }

def sessC8 : Session := { username := some "alice", session_token := some "tok0" }

/-- A second session of the same user, still carrying the pre-change
token. -/
def oldSessC8 : Session :=
  { username := some "alice",
    session_token := get_session_token (fun s => s) docC8 "alice" }

/-- Witness for C8 at a concrete store, password pair and (injective)
identity fingerprint: the actor's session stays valid, the other session
is reported unauthenticated. -/
theorem password_change_refreshes_own_token_witness :
    (change_password (fun s => s) reqNonLocal sessC8 docC8 "oldpw12345"
        "NewSecret99").status = 200 ∧
    (auth_status (fun s => s) reqNonLocal
        (change_password (fun s => s) reqNonLocal sessC8 docC8 "oldpw12345"
          "NewSecret99").session
        (change_password (fun s => s) reqNonLocal sessC8 docC8 "oldpw12345"
          "NewSecret99").doc).authenticated = true ∧
    (auth_status (fun s => s) reqNonLocal oldSessC8
        (change_password (fun s => s) reqNonLocal sessC8 docC8 "oldpw12345"
          "NewSecret99").doc).authenticated = false := by
  have h := password_change_refreshes_own_token (fun s => s) reqNonLocal sessC8
    docC8 "alice" "oldpw12345" "NewSecret99"
    { username := "alice", password := "oldpw12345", roles := ["Ops"] }
    (fun a b hab => hab) (by decide) rfl (by decide) (by decide) (by decide)
    (by decide) (by decide) (by decide) (by decide)
  exact ⟨h.1, h.2.1, (h.2.2.2 oldSessC8 rfl rfl).1⟩

/-! ## Claim C9 -/

/-- Claim C9: a login attempt with an existing username and a wrong
password and a login attempt with a nonexistent username produce the
identical response status and body — the generic invalid-credentials
401 — revealing nothing about whether the username exists.  (Both
requests come through the same whitelisted origin and carry non-empty
fields.) -/
theorem login_failure_indistinguishable
    (sha : String → String) (req : RequestInfo) (sess : Session) (doc : UsersDoc)
    (whitelist : List String) (u1 p1 u2 p2 : String)
    (hwl : is_ip_whitelisted req whitelist = true)
    (h1ne : sanitize_string u1 100 ≠ "") (hp1 : p1 ≠ "")
    (h2ne : sanitize_string u2 100 ≠ "") (hp2 : p2 ≠ "")
    (hexists : doc.users.any (fun u => u.username == sanitize_string u1 100) = true)
    (hwrong : authenticate_user doc (sanitize_string u1 100) p1 = false)
    (habsent : doc.users.all (fun u => !(u.username == sanitize_string u2 100)) = true) :
    (login sha req sess doc whitelist u1 p1).status =
      (login sha req sess doc whitelist u2 p2).status ∧
    (login sha req sess doc whitelist u1 p1).body =
      (login sha req sess doc whitelist u2 p2).body ∧
    (login sha req sess doc whitelist u1 p1).status = 401 ∧
    (login sha req sess doc whitelist u1 p1).body =
      "Invalid username or password" := by
  have hauth2 : authenticate_user doc (sanitize_string u2 100) p2 = false := by
    rw [authenticate_user, List.any_eq_false]
    intro u hu
    have h := (List.all_eq_true.mp habsent) u hu
    simp only [Bool.not_eq_eq_eq_not, Bool.not_true] at h
    simp [h]
  have hlog1 : (login sha req sess doc whitelist u1 p1).status = 401 ∧
      (login sha req sess doc whitelist u1 p1).body =
        "Invalid username or password" := by
    constructor <;> simp [login, hwl, h1ne, hp1, hwrong]
  have hlog2 : (login sha req sess doc whitelist u2 p2).status = 401 ∧
      (login sha req sess doc whitelist u2 p2).body =
        "Invalid username or password" := by
    constructor <;> simp [login, hwl, h2ne, hp2, hauth2]
  exact ⟨hlog1.1.trans hlog2.1.symm, hlog1.2.trans hlog2.2.symm, hlog1.1, hlog1.2⟩

def docC9 : UsersDoc :=
  { users := [{ username := "alice", password := "secret123", roles := [] }],
    roles := [] }

/-- Witness for C9: wrong password for the stored user `alice` vs the
nonexistent user `bob` — same status, same body. -/
theorem login_failure_indistinguishable_witness :
    (login (fun s => s) reqNonLocal {} docC9 [] "alice" "wrongpw").status =
      (login (fun s => s) reqNonLocal {} docC9 [] "bob" "wrongpw").status ∧
    (login (fun s => s) reqNonLocal {} docC9 [] "alice" "wrongpw").body =
      (login (fun s => s) reqNonLocal {} docC9 [] "bob" "wrongpw").body := by
  have h := login_failure_indistinguishable (fun s => s) reqNonLocal {} docC9 []
    "alice" "wrongpw" "bob" "wrongpw" (by decide) (by decide) (by decide)
    (by decide) (by decide) (by decide) (by decide) (by decide)
  exact ⟨h.1, h.2.1⟩

/-! ## Claim C10 -/

/-- Claim C10: when the posted configuration contains a categories list,
`update_config` — beyond writing the configuration document — rewrites
the user/role document so that every role with `is_admin` set or named
`Admins` absorbs every new category name into its categories set, while
non-administrative roles are left entirely unchanged (and the users list
is untouched). -/
theorem update_config_grants_categories_to_admin_roles
    (doc : UsersDoc) (cats : List ConfigCategory) :
    (update_config_grant doc cats).users = doc.users ∧
    List.Forall₂ (fun r r' : Role =>
        (¬(r.is_admin = true ∨ r.name = "Admins") → r' = r) ∧
        ((r.is_admin = true ∨ r.name = "Admins") →
          r'.name = r.name ∧ r'.description = r.description ∧
          r'.is_admin = r.is_admin ∧
          ∀ c, c ∈ r'.categories ↔
            c ∈ r.categories ∨ c ∈ cats.map ConfigCategory.name))
      doc.roles (update_config_grant doc cats).roles := by
  refine ⟨rfl, ?_⟩
  show List.Forall₂ _ doc.roles (doc.roles.map _)
  rw [List.forall₂_map_right_iff, List.forall₂_same]
  intro r hr
  by_cases hadm : (r.is_admin || r.name == "Admins") = true
  · have hadmP : r.is_admin = true ∨ r.name = "Admins" := by
      simpa [Bool.or_eq_true, beq_iff_eq] using hadm
    constructor
    · intro hcon; exact absurd hadmP hcon
    · intro _
      refine ⟨?_, ?_, ?_, fun c => ?_⟩ <;>
        simp [hadm, mergeCategorySet, List.mem_dedup, List.mem_append]
  · have hadmP : ¬(r.is_admin = true ∨ r.name = "Admins") := by
      simpa [Bool.or_eq_true, beq_iff_eq] using hadm
    constructor
    · intro _
      simp [hadm]
    · intro hcon; exact absurd hcon hadmP

def docC10 : UsersDoc :=
  { users := [],
    roles := [{ name := "Admins", categories := ["a"], is_admin := false },
              { name := "Ops", categories := ["b"], is_admin := false }] }

/-- Witness for C10: a new category `c` lands in the categories of the
role named `Admins` (whose stored `is_admin` is `false`), while the
non-administrative `Ops` role is unchanged. -/
theorem update_config_grants_categories_witness :
    (update_config_grant docC10 [{ name := "c" }]).users = docC10.users ∧
    ("c" ∈ (((update_config_grant docC10 [{ name := "c" }]).roles.headD
        { name := "" }).categories) ∧
      (update_config_grant docC10 [{ name := "c" }]).roles.getLast? =
        some { name := "Ops", categories := ["b"], is_admin := false }) := by
  have h := update_config_grants_categories_to_admin_roles docC10 [{ name := "c" }]
  refine ⟨h.1, ?_, ?_⟩
  · rcases h.2 with _ | ⟨⟨h1a, h1b⟩, htail⟩
    have hmem := ((h1b (Or.inr rfl)).2.2.2 "c").mpr (Or.inr (by decide))
    simpa using hmem
  · decide
